import Mathlib

/- Formal model of the Glia Functions CLI (salemove/glia-functions-tools,
python-tools/glia-mcp/glia-function-cli.py), covering the configuration
resolution layer, the persisted function context, the environment router,
and the update workflow (create version, poll task, deploy). -/

namespace GliaCLI

/-- Truthiness of an optional string, matching Python where both None and the
empty string are falsy. -/
def truthy : Option String → Bool
  | none => false
  | some s => s != ""

/-- Production base URL, the api_url of the production entry of ENVIRONMENTS. -/
def prodApiUrl : String := "https://api.glia.com"

/-- Base URL resolution: ENVIRONMENTS.get(environment, production).get(api_url).
The ENVIRONMENTS dictionary has exactly the four keys below; a lookup with any
other name falls back to the production entry. -/
def resolveApiUrl (environment : String) : String :=
  if environment = "production" then "https://api.glia.com"
  else if environment = "beta" then "https://api.beta.glia.com"
  else if environment = "production-eu" then "https://api.glia.eu"
  else if environment = "beta-eu" then "https://api.beta.glia.eu"
  else "https://api.glia.com"

/-- URL built by getToken: base of the resolved environment plus the token path. -/
def tokenUrlFor (environment : String) : String :=
  resolveApiUrl environment ++ "/operator_authentication/tokens"

/-- URL built by updateFunction: base of the resolved environment. -/
def updateFunctionUrl (environment functionId : String) : String :=
  resolveApiUrl environment ++ "/functions/" ++ functionId ++ "/versions"

/-- URL built by deployFunction: base of the resolved environment. -/
def deployFunctionUrl (environment functionId : String) : String :=
  resolveApiUrl environment ++ "/functions/" ++ functionId ++ "/deployments"

/-- URL built by checkTaskStatus: always the production base, whatever the
resolved environment is. -/
def checkTaskStatusUrl (task_url : String) : String := prodApiUrl ++ task_url

/-- URL built by getFunctionInfo: always the production base. -/
def getFunctionInfoUrl (functionId : String) : String :=
  prodApiUrl ++ "/functions/" ++ functionId

/-- URL built by getFunctionVersion: always the production base. -/
def getFunctionVersionUrl (functionId versionId : String) : String :=
  prodApiUrl ++ "/functions/" ++ functionId ++ "/versions/" ++ versionId

/-- URL built by getFunctionGetCode: always the production base. -/
def getFunctionGetCodeUrl (functionId versionId : String) : String :=
  prodApiUrl ++ "/functions/" ++ functionId ++ "/versions/" ++ versionId ++ "/code"

/-- URL built by getFunctionTask: always the production base. -/
def getFunctionTaskUrl (functionId taskId : String) : String :=
  prodApiUrl ++ "/functions/" ++ functionId ++ "/tasks/" ++ taskId

/-- The persisted current_function object written by set_current_function. -/
structure CurrentFunction where
  id : String
  name : String
  description : String
  current_version_id : Option String
  site_id : Option String
  selected_at : Nat
deriving DecidableEq, Repr

/-- The configuration dictionary held by ConfigManager. A field is none when
the corresponding key is absent. -/
structure Config where
  api_key_id : Option String
  api_key_secret : Option String
  site_id : Option String
  environment : Option String
  current_function : Option CurrentFunction
deriving DecidableEq, Repr

/-- The process environment variables read by load_config. -/
structure EnvVars where
  api_key_id : Option String
  api_key_secret : Option String
  site_id : Option String
  GLIA_ENV : Option String
deriving DecidableEq, Repr

def emptyConfig : Config := ⟨none, none, none, none, none⟩

/-- ConfigManager.load_config: start from the parsed file when it exists and
parses (else an empty dictionary); when api_key_id or api_key_secret is falsy,
fill each of the four keys from the environment variables, but only when the
environment value is truthy and the current value is falsy. The environment
value for the environment key is GLIA_ENV with default production. -/
def load_config (file : Option Config) (env : EnvVars) : Config :=
  let config := file.getD emptyConfig
  if !truthy config.api_key_id || !truthy config.api_key_secret then
    let envEnvironment : Option String := some (env.GLIA_ENV.getD "production")
    let fill : Option String → Option String → Option String := fun cur v =>
      if truthy v && !truthy cur then v else cur
    { api_key_id := fill config.api_key_id env.api_key_id
      api_key_secret := fill config.api_key_secret env.api_key_secret
      site_id := fill config.site_id env.site_id
      environment := fill config.environment envEnvironment
      current_function := config.current_function }
  else config

/-- The credential set produced by ConfigManager.get_credentials. -/
structure Credentials where
  api_key_id : String
  api_key_secret : String
  site_ids : List String
deriving DecidableEq, Repr

/-- ConfigManager.get_credentials: none when api_key_id or api_key_secret is
falsy, otherwise the credential dictionary with site_ids a singleton when
site_id is truthy and empty otherwise. -/
def get_credentials (cfg : Config) : Option Credentials :=
  if !truthy cfg.api_key_id || !truthy cfg.api_key_secret then none
  else some { api_key_id := cfg.api_key_id.getD ""
              api_key_secret := cfg.api_key_secret.getD ""
              site_ids := if truthy cfg.site_id then [cfg.site_id.getD ""] else [] }

/-- ConfigManager.get_environment: the environment key with default production. -/
def get_environment (cfg : Config) : String := cfg.environment.getD "production"

/-- Resolution in main: args.environment or config_manager.get_environment(). -/
def resolved_environment (args_env : Option String) (cfg : Config) : String :=
  match args_env with
  | some s => if s != "" then s else get_environment cfg
  | none => get_environment cfg

/-- Resolution in main: args.site_id or config.get(site_id). -/
def resolved_site_id (args_site : Option String) (cfg : Config) : Option String :=
  if truthy args_site then args_site else cfg.site_id

/-- A function description as it arrives from the server: id and name are
required keys, the remaining keys may be absent (none). -/
structure FunctionData where
  id : String
  name : String
  description : Option String
  current_version_id : Option String
  site_id : Option String
deriving DecidableEq, Repr

/-- ConfigManager.set_current_function: stores id and name directly, the
description with default empty string, current_version_id and site_id with
default none, and selected_at as the current time. -/
def set_current_function (cfg : Config) (f : FunctionData) (now : Nat) : Config :=
  let entry : CurrentFunction :=
    { id := f.id
      name := f.name
      description := f.description.getD ""
      current_version_id := f.current_version_id
      site_id := f.site_id
      selected_at := now }
  { cfg with current_function := some entry }

/-- ConfigManager.get_current_function: the current_function key of the config. -/
def get_current_function (cfg : Config) : Option CurrentFunction :=
  cfg.current_function

/-- get_function_id_from_context: args.function_id when truthy, else the id of
the persisted current function, else none. -/
def get_function_id_from_context (args_function_id : Option String) (cfg : Config) :
    Option String :=
  if truthy args_function_id then args_function_id
  else
    match cfg.current_function with
    | some f => some f.id
    | none => none

/-- The entity object inside a task response; its id key may be absent. -/
structure TaskEntity where
  id : Option String
deriving DecidableEq, Repr

/-- A decoded task response: the status and entity keys may be absent. -/
structure TaskResponse where
  status : Option String
  entity : Option TaskEntity
deriving DecidableEq, Repr

/-- The loop condition of the update workflow: the status key equals the
string processing. -/
def isProcessing (r : TaskResponse) : Bool := r.status == some "processing"

/-- The decoded response of updateFunction; the self key (the task reference)
may be absent. -/
structure UpdateResp where
  self : Option String
deriving DecidableEq, Repr

/-- Result of the polling loop: terminal n when fetch n is the first whose
status differs from processing, interrupted k when an interrupt arrived during
a sleep after k fetches, fuelOut when the step budget ran out with the loop
still running. -/
inductive LoopResult where
  | terminal (n : Nat)
  | interrupted (fetches : Nat)
  | fuelOut
deriving DecidableEq, Repr

/-- The while loop of the update workflow. Fetch i is observed; while its
status is processing the process sleeps five seconds (where an external
interrupt may arrive) and fetches again. The fuel argument is only the step
budget of the model: the source loop has no bound of its own. -/
def runLoop (task : Nat → TaskResponse) (intr : Nat → Bool) : Nat → Nat → LoopResult
  | _, 0 => .fuelOut
  | i, fuel + 1 =>
    if isProcessing (task i) then
      if intr i then .interrupted (i + 1)
      else runLoop task intr (i + 1) fuel
    else .terminal i

/-- One network request issued by the update workflow. -/
inductive Req where
  | token (url : String)
  | createVersion (url : String)
  | taskFetch (url : String)
  | deploy (url : String) (version_id : Option String)
deriving DecidableEq, Repr

/-- Final state of one command invocation: the process exit code and the list
of network requests issued, in order. -/
structure Outcome where
  exitCode : Nat
  trace : List Req
deriving DecidableEq, Repr

/-- External behaviour during one update run: the responses of the server and
the arrival of interrupts during the polling sleeps. -/
structure World where
  tokenResult : Except Unit String
  createVersionResult : Except Unit UpdateResp
  task : Nat → TaskResponse
  deployResult : Except Unit Unit
  intr : Nat → Bool

/-- The command line arguments relevant to the modelled commands. -/
structure Args where
  environment : Option String
  function_id : Option String
  site_id : Option String
  hasCode : Bool
  hasEnvFile : Bool
  envFileValid : Bool
  version_id : Option String
  start_date : Option String
  end_date : Option String
deriving DecidableEq, Repr

/-- The deploy requests contained in a trace, as pairs of URL and version id. -/
def deploys : List Req → List (String × Option String)
  | [] => []
  | .deploy u v :: rest => (u, v) :: deploys rest
  | .token _ :: rest => deploys rest
  | .createVersion _ :: rest => deploys rest
  | .taskFetch _ :: rest => deploys rest

def isTaskFetch : Req → Bool
  | .taskFetch _ => true
  | _ => false

/-- Number of task fetch requests in a trace. -/
def countTaskFetches (t : List Req) : Nat := t.countP isTaskFetch

/-- Step after the polling loop stopped at terminal fetch n: the entity of the
final extra task fetch is read; a missing entity raises an attribute error
caught by the top level handler (exit 1, no deployment); otherwise the
deployment request is issued with whatever id the entity held (possibly none),
and a non 2xx deployment response exits 1. -/
def entityPhase (environment functionId taskUrl : String) (n : Nat)
    (ent : Option TaskEntity) (deployResult : Except Unit Unit) : Option Outcome :=
  match ent with
  | none => some ⟨1, List.replicate (n + 2) (Req.taskFetch taskUrl)⟩
  | some e =>
    match deployResult with
    | .error _ => some ⟨1, List.replicate (n + 2) (Req.taskFetch taskUrl) ++
        [.deploy (deployFunctionUrl environment functionId) e.id]⟩
    | .ok _ => some ⟨0, List.replicate (n + 2) (Req.taskFetch taskUrl) ++
        [.deploy (deployFunctionUrl environment functionId) e.id]⟩

/-- Dispatch on how the polling loop ended: an interrupt during a sleep exits 1
with the fetches made so far; a terminal status leads to the entity phase. -/
def afterLoop (environment functionId taskUrl : String) (task : Nat → TaskResponse)
    (deployResult : Except Unit Unit) : LoopResult → Option Outcome
  | .fuelOut => none
  | .interrupted k => some ⟨1, List.replicate k (.taskFetch taskUrl)⟩
  | .terminal n => entityPhase environment functionId taskUrl n ((task (n + 1)).entity) deployResult

/-- Tail of the update workflow, entered with the task reference in hand: the
polling loop, then one further task fetch to read the entity, then the
deployment. -/
def runPollPhase (environment functionId taskUrl : String) (task : Nat → TaskResponse)
    (intr : Nat → Bool) (deployResult : Except Unit Unit) (fuel : Nat) :
    Option Outcome :=
  afterLoop environment functionId taskUrl task deployResult (runLoop task intr 0 fuel)

/-- Network part of the update command: getToken (authentication failure exits
1), the environment file parse, updateFunction (failure exits 1), then the
poll phase when the response carries a task reference; a missing self key
makes the later URL concatenation raise, caught as exit 1. -/
def runNetworkPhase (environment functionId : String) (args : Args) (w : World)
    (fuel : Nat) : Option Outcome :=
  let tokReq := Req.token (tokenUrlFor environment)
  match w.tokenResult with
  | .error _ => some ⟨1, [tokReq]⟩
  | .ok _ =>
    if !args.envFileValid then some ⟨1, [tokReq]⟩
    else
      let createReq := Req.createVersion (updateFunctionUrl environment functionId)
      match w.createVersionResult with
      | .error _ => some ⟨1, [tokReq, createReq]⟩
      | .ok up =>
        match up.self with
        | none => some ⟨1, [tokReq, createReq]⟩
        | some tpath =>
          (runPollPhase environment functionId (checkTaskStatusUrl tpath)
              w.task w.intr w.deployResult fuel).map
            fun o => ⟨o.exitCode, tokReq :: createReq :: o.trace⟩

/-- The update command of main: environment resolution, the credentials check
(a missing credential prints a message and returns from main, exit 0, no
request), the function id, code and env_file guards (exit 1, no request), then
the network phase. The result is none only when the model step budget ran out
inside the unbounded polling loop. -/
def runUpdate (args : Args) (cfg : Config) (w : World) (fuel : Nat) : Option Outcome :=
  let environment := resolved_environment args.environment cfg
  match get_credentials cfg with
  | none => some ⟨0, []⟩
  | some _ =>
    match get_function_id_from_context args.function_id cfg with
    | none => some ⟨1, []⟩
    | some functionId =>
      if !args.hasCode then some ⟨1, []⟩
      else if !args.hasEnvFile then some ⟨1, []⟩
      else runNetworkPhase environment functionId args w fuel

/-- The commands of main that resolve their target through
get_function_id_from_context. -/
inductive FnScopedOp where
  | update
  | deployCmd
  | getLogsCmd
  | recentLogs
  | getInfo
  | listVersions
deriving DecidableEq, Repr

/-- What a command does before its first network request: exit early with a
code, or reach its first network request (getToken at the given URL). -/
inductive Prologue where
  | exitEarly (code : Nat)
  | networkFrom (url : String)
deriving DecidableEq, Repr

/-- The prologue of each function scoped command of main, faithful to the order
of its guards: the shared credentials check (return from main, exit 0), the
function id guard, the per command required argument guards, then getToken. -/
def commandPrologue (op : FnScopedOp) (args : Args) (cfg : Config) : Prologue :=
  let environment := resolved_environment args.environment cfg
  match get_credentials cfg with
  | none => .exitEarly 0
  | some _ =>
    match op with
    | .update =>
      match get_function_id_from_context args.function_id cfg with
      | none => .exitEarly 1
      | some _ =>
        if !args.hasCode then .exitEarly 1
        else if !args.hasEnvFile then .exitEarly 1
        else .networkFrom (tokenUrlFor environment)
    | .deployCmd =>
      match get_function_id_from_context args.function_id cfg with
      | none => .exitEarly 1
      | some _ =>
        if !truthy args.version_id then .exitEarly 1
        else .networkFrom (tokenUrlFor environment)
    | .getLogsCmd =>
      match get_function_id_from_context args.function_id cfg with
      | none => .exitEarly 1
      | some _ =>
        if !truthy args.start_date || !truthy args.end_date then .exitEarly 1
        else .networkFrom (tokenUrlFor environment)
    | .recentLogs =>
      match get_function_id_from_context args.function_id cfg with
      | none => .exitEarly 1
      | some _ => .networkFrom (tokenUrlFor environment)
    | .getInfo =>
      match get_function_id_from_context args.function_id cfg with
      | none => .exitEarly 1
      | some _ => .networkFrom (tokenUrlFor environment)
    | .listVersions =>
      match get_function_id_from_context args.function_id cfg with
      | none => .exitEarly 1
      | some _ => .networkFrom (tokenUrlFor environment)

/-- First index whose task response is not processing, with every earlier
response processing. -/
def FirstTerminal (task : Nat → TaskResponse) (n : Nat) : Prop :=
  isProcessing (task n) = false ∧ ∀ k, k < n → isProcessing (task k) = true

def noIntr : Nat → Bool := fun _ => false

/-- Resolution of site_id as the specification words it: the value of the
highest precedence source in which the field is present (explicit override,
then persisted file, then process environment). Stated for comparison with the
code level resolution. -/
def specResolvedSiteId (override : Option String) (file : Option Config) (env : EnvVars) :
    Option String :=
  (override.orElse fun _ => (file.getD emptyConfig).site_id).orElse fun _ => env.site_id

/-- Resolution of environment as the specification words it: the highest
precedence source in which the field is present, with production as the final
default. Stated for comparison with the code level resolution. -/
def specResolvedEnvironment (override : Option String) (file : Option Config) (env : EnvVars) :
    String :=
  (((override.orElse fun _ => (file.getD emptyConfig).environment).orElse
      fun _ => env.GLIA_ENV).getD "production")

/-- Round trip agreement as the claim words it: the stored current function
equals the selected function description in the id, name, description,
current_version_id and site_id fields. -/
def roundTripAgrees (g : CurrentFunction) (f : FunctionData) : Prop :=
  g.id = f.id ∧ g.name = f.name ∧ (some g.description : Option String) = f.description ∧
    g.current_version_id = f.current_version_id ∧ g.site_id = f.site_id

instance (g : CurrentFunction) (f : FunctionData) : Decidable (roundTripAgrees g f) := by
  unfold roundTripAgrees; infer_instance

/- Concrete fixtures used by counterexamples and witnesses. -/

/-- Task entity carrying version id v9. -/
def entV9 : TaskEntity := ⟨some "v9"⟩

/-- The scripted status sequence processing, processing, completed, with the
terminal status persisting afterwards, every response carrying entity id v9. -/
def scriptPPC : Nat → TaskResponse := fun i =>
  if i < 2 then ⟨some "processing", some entV9⟩ else ⟨some "completed", some entV9⟩

/-- A status sequence that never leaves processing. -/
def allProcScript : Nat → TaskResponse := fun _ => ⟨some "processing", some entV9⟩

/-- A configuration with complete credentials and no persisted context. -/
def cfgOk : Config :=
  { api_key_id := some "k", api_key_secret := some "s", site_id := some "S",
    environment := none, current_function := none }

/-- Arguments of an update invocation with an explicit function id, a code
file and a valid environment file. -/
def argsOk : Args :=
  { environment := none, function_id := some "f1", site_id := none,
    hasCode := true, hasEnvFile := true, envFileValid := true,
    version_id := none, start_date := none, end_date := none }

/-- A healthy server for the scripted C1 scenario. -/
def worldC1 : World :=
  { tokenResult := .ok "tok",
    createVersionResult := .ok ⟨some "/functions/f1/tasks/t1"⟩,
    task := scriptPPC,
    deployResult := .ok (),
    intr := noIntr }

/-- The trace of the scripted C1 run. -/
def traceOfC1 : List Req := (runUpdate argsOk cfgOk worldC1 10).elim [] Outcome.trace

section LoopLemmas

variable (task : Nat → TaskResponse) (intr : Nat → Bool)

theorem runLoop_fuelOut_of_all_processing
    (hall : ∀ i, isProcessing (task i) = true) (hni : ∀ i, intr i = false) :
    ∀ fuel i, runLoop task intr i fuel = .fuelOut := by
  intro fuel
  induction fuel with
  | zero => intro i; rfl
  | succ f ih =>
    intro i
    simp only [runLoop, hall i, hni i, if_true, Bool.false_eq_true, if_false]
    exact ih (i + 1)

theorem runLoop_terminal_of_firstTerminal {n : Nat}
    (hft : FirstTerminal task n) (hni : ∀ k, k < n → intr k = false) :
    ∀ fuel i, i ≤ n → n - i < fuel → runLoop task intr i fuel = .terminal n := by
  intro fuel
  induction fuel with
  | zero => intro i _ h; exact absurd h (Nat.not_lt_zero _)
  | succ f ih =>
    intro i hin hlt
    rcases Nat.eq_or_lt_of_le hin with rfl | hiltn
    · simp only [runLoop, hft.1, Bool.false_eq_true, if_false]
    · have hproc := hft.2 i hiltn
      simp only [runLoop, hproc, if_true, hni i hiltn, Bool.false_eq_true, if_false]
      exact ih (i + 1) hiltn (by omega)

theorem runLoop_congr (task2 : Nat → TaskResponse)
    (h : ∀ i, isProcessing (task i) = isProcessing (task2 i)) :
    ∀ fuel i, runLoop task intr i fuel = runLoop task2 intr i fuel := by
  intro fuel
  induction fuel with
  | zero => intro i; rfl
  | succ f ih =>
    intro i
    simp only [runLoop, h i]
    cases isProcessing (task2 i)
    · rfl
    · cases intr i
      · simpa using ih (i + 1)
      · rfl

end LoopLemmas

theorem deploys_append (a b : List Req) : deploys (a ++ b) = deploys a ++ deploys b := by
  induction a with
  | nil => rfl
  | cons r rest ih => cases r <;> simp [deploys, ih]

theorem deploys_replicate_taskFetch (k : Nat) (u : String) :
    deploys (List.replicate k (.taskFetch u)) = [] := by
  induction k with
  | zero => rfl
  | succ m ih => simpa [List.replicate, deploys] using ih

theorem countTaskFetches_replicate (k : Nat) (u : String) :
    countTaskFetches (List.replicate k (.taskFetch u)) = k := by
  induction k with
  | zero => rfl
  | succ m ih =>
    simp [countTaskFetches, List.replicate, List.countP_cons, isTaskFetch] at ih ⊢
    omega

theorem countTaskFetches_append (a b : List Req) :
    countTaskFetches (a ++ b) = countTaskFetches a + countTaskFetches b :=
  List.countP_append _ _ _

/-- C1: for the scripted task status sequence processing, processing, completed
with entity id v9, the claim says the orchestrator fetches the task status
exactly 3 times. The code reads the status three times but then issues a
fourth task fetch to extract the entity, so the run performs 4 task fetches,
not 3. -/
theorem C1_counterexample :
    countTaskFetches traceOfC1 = 4 ∧ countTaskFetches traceOfC1 ≠ 3 := by decide

/-- C1 amended: on the scripted sequence the loop stops on the third status
fetch (first terminal index 2), the run performs 4 task fetches in total (three
status polls plus one final entity fetch), and exactly one deployment request
is issued, carrying version id v9, with exit code 0. -/
theorem C1_scripted_run :
    runLoop scriptPPC noIntr 0 10 = .terminal 2 ∧
    countTaskFetches traceOfC1 = 4 ∧
    deploys traceOfC1 = [(deployFunctionUrl "production" "f1", some "v9")] ∧
    (runUpdate argsOk cfgOk worldC1 10).map Outcome.exitCode = some 0 := by decide

/-- C2: the polling loop has no attempt bound and no timeout. When every
observation is processing, the loop does not terminate within any step budget;
when the first non processing observation is at position n, the loop stops
exactly after that observation. -/
theorem C2_polling_loop_unbounded (task : Nat → TaskResponse) :
    ((∀ i, isProcessing (task i) = true) →
      ∀ fuel i, runLoop task noIntr i fuel = .fuelOut) ∧
    (∀ n fuel, FirstTerminal task n → n < fuel →
      runLoop task noIntr 0 fuel = .terminal n) := by
  constructor
  · intro hall
    exact runLoop_fuelOut_of_all_processing task noIntr hall (fun _ => rfl)
  · intro n fuel hft hnf
    exact runLoop_terminal_of_firstTerminal task noIntr hft (fun _ _ => rfl) fuel 0
      (Nat.zero_le n) (by omega)

theorem C2_witness :
    runLoop allProcScript noIntr 0 7 = .fuelOut ∧
    runLoop scriptPPC noIntr 0 7 = .terminal 2 := by
  constructor
  · exact (C2_polling_loop_unbounded allProcScript).1 (fun i => rfl) 7 0
  · exact (C2_polling_loop_unbounded scriptPPC).2 2 7
      ⟨rfl, fun k hk => by interval_cases k <;> rfl⟩ (by omega)

/-- C6: environment resolution is total: each of the four enumerated names
maps to its fixed base URL and every other name, including the empty or unset
name, maps to the production base URL. -/
theorem C6_environment_router :
    resolveApiUrl "production" = "https://api.glia.com" ∧
    resolveApiUrl "beta" = "https://api.beta.glia.com" ∧
    resolveApiUrl "production-eu" = "https://api.glia.eu" ∧
    resolveApiUrl "beta-eu" = "https://api.beta.glia.eu" ∧
    resolveApiUrl "" = "https://api.glia.com" ∧
    resolveApiUrl (resolved_environment none emptyConfig) = "https://api.glia.com" ∧
    (∀ s : String, s ≠ "production" → s ≠ "beta" → s ≠ "production-eu" → s ≠ "beta-eu" →
      resolveApiUrl s = "https://api.glia.com") := by
  refine ⟨by decide, by decide, by decide, by decide, by decide, by decide, ?_⟩
  intro s h1 h2 h3 h4
  simp only [resolveApiUrl, if_neg h1, if_neg h2, if_neg h3, if_neg h4]

theorem C6_witness : resolveApiUrl "staging" = "https://api.glia.com" :=
  C6_environment_router.2.2.2.2.2.2 "staging" (by decide) (by decide) (by decide) (by decide)

/-- The function description used by the C9 counterexample: its description
key is absent. -/
def f0 : FunctionData := ⟨"f1", "n", none, none, none⟩

/-- C9: the claim says set then get returns a value equal to f in the id,
name, description, current_version_id and site_id fields. When the selected
function has no description key, set stores the empty string for it, so the
stored value does not equal f in the description field. -/
theorem C9_counterexample :
    get_current_function (set_current_function cfgOk f0 100) =
      some ⟨"f1", "n", "", none, none, 100⟩ ∧
    ¬ roundTripAgrees ⟨"f1", "n", "", none, none, 100⟩ f0 := by
  constructor
  · rfl
  · decide

/-- C9 amended: set then get returns a value equal to f in id, name,
current_version_id and site_id; the description equals the description of f
when that key is present and the empty string when it is absent; selected_at
is the time of the set call, hence at least that time. -/
theorem C9_round_trip (cfg : Config) (f : FunctionData) (now : Nat) :
    ∃ g, get_current_function (set_current_function cfg f now) = some g ∧
      g.id = f.id ∧ g.name = f.name ∧
      g.description = f.description.getD "" ∧
      (∀ d, f.description = some d → g.description = d) ∧
      g.current_version_id = f.current_version_id ∧ g.site_id = f.site_id ∧
      g.selected_at = now ∧ now ≤ g.selected_at := by
  refine ⟨_, rfl, rfl, rfl, rfl, ?_, rfl, rfl, rfl, le_refl _⟩
  intro d hd
  simp [hd]

theorem C9_witness :
    ∃ g, get_current_function (set_current_function cfgOk ⟨"f1", "n", some "d", none, none⟩ 5) =
      some g ∧ g.description = "d" := by
  obtain ⟨g, hg, _, _, hdesc, _, _, _, _, _⟩ :=
    C9_round_trip cfgOk ⟨"f1", "n", some "d", none, none⟩ 5
  exact ⟨g, hg, by rw [hdesc]; rfl⟩

/-- The trace of the scripted run with resolved environment beta. -/
def traceBeta : List Req :=
  (runUpdate { argsOk with environment := some "beta" } cfgOk worldC1 10).elim [] Outcome.trace

/-- C10: task polling and the read only function info, version, code and task
lookups always target the fixed production base URL, while version creation and
deployment target the resolved environment base URL; for any of the non
production environments the two bases differ, so one update run mixes two base
URLs, as the beta run below shows concretely. -/
theorem C10_mixed_base_urls :
    prodApiUrl = "https://api.glia.com" ∧
    (∀ tpath : String, checkTaskStatusUrl tpath = prodApiUrl ++ tpath) ∧
    (∀ fid, getFunctionInfoUrl fid = prodApiUrl ++ "/functions/" ++ fid) ∧
    (∀ fid vid, getFunctionVersionUrl fid vid =
      prodApiUrl ++ "/functions/" ++ fid ++ "/versions/" ++ vid) ∧
    (∀ fid vid, getFunctionGetCodeUrl fid vid =
      prodApiUrl ++ "/functions/" ++ fid ++ "/versions/" ++ vid ++ "/code") ∧
    (∀ fid tid, getFunctionTaskUrl fid tid =
      prodApiUrl ++ "/functions/" ++ fid ++ "/tasks/" ++ tid) ∧
    (∀ env fid, updateFunctionUrl env fid =
      resolveApiUrl env ++ "/functions/" ++ fid ++ "/versions") ∧
    (∀ env fid, deployFunctionUrl env fid =
      resolveApiUrl env ++ "/functions/" ++ fid ++ "/deployments") ∧
    (∀ env, (env = "beta" ∨ env = "production-eu" ∨ env = "beta-eu") →
      resolveApiUrl env ≠ prodApiUrl) ∧
    Req.taskFetch (checkTaskStatusUrl "/functions/f1/tasks/t1") ∈ traceBeta ∧
    Req.deploy (deployFunctionUrl "beta" "f1") (some "v9") ∈ traceBeta := by
  refine ⟨rfl, fun tpath => rfl, fun fid => rfl, fun fid vid => rfl, fun fid vid => rfl,
    fun fid tid => rfl, fun env fid => rfl, fun env fid => rfl, ?_, by decide, by decide⟩
  intro env h
  rcases h with rfl | rfl | rfl <;> decide

theorem C10_witness : resolveApiUrl "beta" ≠ prodApiUrl := by
  obtain ⟨-, -, -, -, -, -, -, -, h9, -, -⟩ := C10_mixed_base_urls
  exact h9 "beta" (Or.inl rfl)

theorem runPollPhase_congr (environment functionId taskUrl : String)
    (task1 task2 : Nat → TaskResponse) (intr : Nat → Bool) (dr : Except Unit Unit) (fuel : Nat)
    (hs : ∀ i, isProcessing (task1 i) = isProcessing (task2 i))
    (he : ∀ i, (task1 i).entity = (task2 i).entity) :
    runPollPhase environment functionId taskUrl task1 intr dr fuel =
      runPollPhase environment functionId taskUrl task2 intr dr fuel := by
  have hl : runLoop task1 intr 0 fuel = runLoop task2 intr 0 fuel :=
    runLoop_congr task1 intr task2 hs fuel 0
  unfold runPollPhase
  rw [hl]
  cases runLoop task2 intr 0 fuel with
  | fuelOut => rfl
  | interrupted k => rfl
  | terminal n => simp only [afterLoop, he (n + 1)]

theorem runUpdate_congr (args : Args) (cfg : Config) (w1 w2 : World) (fuel : Nat)
    (htok : w1.tokenResult = w2.tokenResult)
    (hcv : w1.createVersionResult = w2.createVersionResult)
    (hdep : w1.deployResult = w2.deployResult)
    (hintr : w1.intr = w2.intr)
    (hs : ∀ i, isProcessing (w1.task i) = isProcessing (w2.task i))
    (he : ∀ i, (w1.task i).entity = (w2.task i).entity) :
    runUpdate args cfg w1 fuel = runUpdate args cfg w2 fuel := by
  have hpoll : ∀ u functionId, runPollPhase u functionId u w1.task w1.intr w1.deployResult fuel =
      runPollPhase u functionId u w2.task w2.intr w2.deployResult fuel := by
    intro u functionId
    rw [hintr, hdep]
    exact runPollPhase_congr u functionId u w1.task w2.task w2.intr w2.deployResult fuel hs he
  have hpoll2 : ∀ e functionId u, runPollPhase e functionId u w1.task w1.intr w1.deployResult fuel =
      runPollPhase e functionId u w2.task w2.intr w2.deployResult fuel := by
    intro e functionId u
    rw [hintr, hdep]
    exact runPollPhase_congr e functionId u w1.task w2.task w2.intr w2.deployResult fuel hs he
  unfold runUpdate runNetworkPhase
  rw [htok, hcv]
  simp only [hpoll2]

/-- C3: the first observation whose status differs from processing is terminal:
the loop stops exactly there, whatever the status string is; the whole update
run is unchanged when the task responses are replaced by responses with the
same processing or non processing shape and the same entities, so completed,
failed and every other terminal string behave identically; and after stopping,
the run issues exactly one further task fetch (the entity read) and never polls
again: a terminal index n yields exactly n plus 2 task fetches. -/
theorem C3_terminal_status :
    (∀ (task : Nat → TaskResponse) (intr : Nat → Bool) (n fuel : Nat),
      FirstTerminal task n → (∀ k, k < n → intr k = false) → n < fuel →
      runLoop task intr 0 fuel = .terminal n) ∧
    (∀ (args : Args) (cfg : Config) (w1 w2 : World) (fuel : Nat),
      w1.tokenResult = w2.tokenResult → w1.createVersionResult = w2.createVersionResult →
      w1.deployResult = w2.deployResult → w1.intr = w2.intr →
      (∀ i, isProcessing (w1.task i) = isProcessing (w2.task i)) →
      (∀ i, (w1.task i).entity = (w2.task i).entity) →
      runUpdate args cfg w1 fuel = runUpdate args cfg w2 fuel) ∧
    (∀ (environment functionId taskUrl : String) (task : Nat → TaskResponse)
      (intr : Nat → Bool) (dr : Except Unit Unit) (fuel n : Nat),
      runLoop task intr 0 fuel = .terminal n →
      ∃ o, runPollPhase environment functionId taskUrl task intr dr fuel = some o ∧
        countTaskFetches o.trace = n + 2) := by
  refine ⟨?_, ?_, ?_⟩
  · intro task intr n fuel hft hni hnf
    exact runLoop_terminal_of_firstTerminal task intr hft hni fuel 0 (Nat.zero_le n) (by omega)
  · intro args cfg w1 w2 fuel htok hcv hdep hintr hs he
    exact runUpdate_congr args cfg w1 w2 fuel htok hcv hdep hintr hs he
  · intro environment functionId taskUrl task intr dr fuel n h
    unfold runPollPhase
    rw [h]
    simp only [afterLoop]
    cases he : (task (n + 1)).entity with
    | none =>
      refine ⟨⟨1, List.replicate (n + 2) (Req.taskFetch taskUrl)⟩, ?_, ?_⟩
      · simp [entityPhase]
      · exact countTaskFetches_replicate (n + 2) taskUrl
    | some ent =>
      cases hd : dr with
      | error e =>
        refine ⟨⟨1, List.replicate (n + 2) (Req.taskFetch taskUrl) ++
          [Req.deploy (deployFunctionUrl environment functionId) ent.id]⟩, ?_, ?_⟩
        · simp [entityPhase]
        · rw [countTaskFetches_append, countTaskFetches_replicate]
          simp [countTaskFetches, List.countP_cons, isTaskFetch]
      | ok u =>
        refine ⟨⟨0, List.replicate (n + 2) (Req.taskFetch taskUrl) ++
          [Req.deploy (deployFunctionUrl environment functionId) ent.id]⟩, ?_, ?_⟩
        · simp [entityPhase]
        · rw [countTaskFetches_append, countTaskFetches_replicate]
          simp [countTaskFetches, List.countP_cons, isTaskFetch]

theorem C3_witness :
    runLoop scriptPPC noIntr 0 7 = LoopResult.terminal 2 ∧
    (∃ o, runPollPhase "production" "f1" "/t" scriptPPC noIntr (Except.ok ()) 7 = some o ∧
      countTaskFetches o.trace = 4) := by
  constructor
  · exact C3_terminal_status.1 scriptPPC noIntr 2 7
      ⟨rfl, fun k hk => by interval_cases k <;> rfl⟩ (fun k hk => rfl) (by omega)
  · obtain ⟨o, h1, h2⟩ :=
      C3_terminal_status.2.2 "production" "f1" "/t" scriptPPC noIntr (Except.ok ()) 7 2 (by decide)
    exact ⟨o, h1, by omega⟩

/-- The persisted file used by the C4 counterexample: both key fields present,
site_id and environment absent. -/
def fileC4 : Config :=
  { api_key_id := some "k", api_key_secret := some "s", site_id := none,
    environment := none, current_function := none }

/-- The process environment used by the C4 counterexample. -/
def envC4 : EnvVars :=
  { api_key_id := none, api_key_secret := none, site_id := some "S", GLIA_ENV := some "beta" }

/-- C4: the claim says every resolved field equals the highest precedence
source in which it is present. With both key fields present in the persisted
file, the environment variable block is skipped entirely, so an environment
site_id of S and a GLIA_ENV of beta are ignored: the code resolves site_id to
none and environment to production, while the claimed resolution yields S and
beta. -/
theorem C4_counterexample :
    resolved_site_id none (load_config (some fileC4) envC4) = none ∧
    specResolvedSiteId none (some fileC4) envC4 = some "S" ∧
    (none : Option String) ≠ some "S" ∧
    resolved_environment none (load_config (some fileC4) envC4) = "production" ∧
    specResolvedEnvironment none (some fileC4) envC4 = "beta" ∧
    "production" ≠ "beta" := by decide

/-- The configuration produced when the environment fallback block of
load_config runs: each field is filled from its environment value exactly when
that value is truthy and the file value is not. -/
def fillResult (file : Config) (env : EnvVars) : Config :=
  { api_key_id := if truthy env.api_key_id && !truthy file.api_key_id
      then env.api_key_id else file.api_key_id
    api_key_secret := if truthy env.api_key_secret && !truthy file.api_key_secret
      then env.api_key_secret else file.api_key_secret
    site_id := if truthy env.site_id && !truthy file.site_id
      then env.site_id else file.site_id
    environment := if truthy (some (env.GLIA_ENV.getD "production")) && !truthy file.environment
      then some (env.GLIA_ENV.getD "production") else file.environment
    current_function := file.current_function }

theorem load_config_eq (file : Config) (env : EnvVars) :
    load_config (some file) env =
      if !truthy file.api_key_id || !truthy file.api_key_secret
        then fillResult file env else file := rfl

/-- C4 amended: the environment variable block runs only when api_key_id or
api_key_secret is missing or empty in the persisted file; when both are
present the persisted file is returned unchanged and every environment
variable is ignored. When the block runs, an environment value fills only a
field whose persisted value is falsy and never overrides a present value, and
an absent environment key together with an unset GLIA_ENV makes the
environment field default to production. Explicit per invocation overrides
always win for environment and site_id. -/
theorem C4_env_fallback (file : Config) (env : EnvVars) :
    (truthy file.api_key_id → truthy file.api_key_secret →
      load_config (some file) env = file) ∧
    (truthy file.api_key_id →
      (load_config (some file) env).api_key_id = file.api_key_id) ∧
    (truthy file.api_key_secret →
      (load_config (some file) env).api_key_secret = file.api_key_secret) ∧
    (truthy file.site_id →
      (load_config (some file) env).site_id = file.site_id) ∧
    (truthy file.environment →
      (load_config (some file) env).environment = file.environment) ∧
    (truthy file.api_key_id = false → truthy env.api_key_id →
      (load_config (some file) env).api_key_id = env.api_key_id) ∧
    (truthy file.api_key_secret = false → truthy env.api_key_secret →
      (load_config (some file) env).api_key_secret = env.api_key_secret) ∧
    (truthy file.api_key_id = false → file.environment = none → env.GLIA_ENV = none →
      (load_config (some file) env).environment = some "production") ∧
    (∀ s : String, s ≠ "" →
      resolved_environment (some s) (load_config (some file) env) = s) ∧
    (∀ s : String, s ≠ "" →
      resolved_site_id (some s) (load_config (some file) env) = some s) := by
  refine ⟨?_, ?_, ?_, ?_, ?_, ?_, ?_, ?_, ?_, ?_⟩
  · intro h1 h2
    rw [load_config_eq, if_neg]
    simp [h1, h2]
  · intro h1
    rw [load_config_eq]
    by_cases hc : (!truthy file.api_key_id || !truthy file.api_key_secret) = true
    · rw [if_pos hc]; simp [fillResult, h1]
    · rw [if_neg hc]
  · intro h2
    rw [load_config_eq]
    by_cases hc : (!truthy file.api_key_id || !truthy file.api_key_secret) = true
    · rw [if_pos hc]; simp [fillResult, h2]
    · rw [if_neg hc]
  · intro h
    rw [load_config_eq]
    by_cases hc : (!truthy file.api_key_id || !truthy file.api_key_secret) = true
    · rw [if_pos hc]; simp [fillResult, h]
    · rw [if_neg hc]
  · intro h
    rw [load_config_eq]
    by_cases hc : (!truthy file.api_key_id || !truthy file.api_key_secret) = true
    · rw [if_pos hc]; simp [fillResult, h]
    · rw [if_neg hc]
  · intro h1 h2
    rw [load_config_eq, if_pos (by simp [h1])]
    simp [fillResult, h1, h2]
  · intro h1 h2
    rw [load_config_eq, if_pos (by simp [h1])]
    simp [fillResult, h1, h2]
  · intro h1 he hg
    rw [load_config_eq, if_pos (by simp [h1])]
    simp [fillResult, he, hg, truthy]
  · intro s hs
    simp [resolved_environment, hs]
  · intro s hs
    simp [resolved_site_id, truthy, hs]

theorem C4_witness :
    load_config (some fileC4) ⟨some "ek", some "es", some "S", some "beta"⟩ = fileC4 ∧
    resolved_site_id (some "X") (load_config (some fileC4) envC4) = some "X" := by
  constructor
  · exact (C4_env_fallback fileC4 ⟨some "ek", some "es", some "S", some "beta"⟩).1
      (by decide) (by decide)
  · exact (C4_env_fallback fileC4 envC4).2.2.2.2.2.2.2.2.2 "X" (by decide)

/-- C5: resolveFunctionId returns the explicit id when one is supplied
(non empty), else the id of the persisted current function context when one
exists, else none; and every function scoped command whose resolution is none
exits before issuing any network request, with exit code 1 when credentials
were resolvable. -/
theorem C5_resolve_function_id :
    (∀ (explicit : Option String) (cfg : Config),
      (truthy explicit → get_function_id_from_context explicit cfg = explicit) ∧
      (truthy explicit = false → ∀ f, cfg.current_function = some f →
        get_function_id_from_context explicit cfg = some f.id) ∧
      (truthy explicit = false → cfg.current_function = none →
        get_function_id_from_context explicit cfg = none)) ∧
    (∀ (op : FnScopedOp) (args : Args) (cfg : Config),
      get_function_id_from_context args.function_id cfg = none →
      (∀ url, commandPrologue op args cfg ≠ .networkFrom url) ∧
      (get_credentials cfg ≠ none → commandPrologue op args cfg = .exitEarly 1)) := by
  constructor
  · intro explicit cfg
    refine ⟨fun h => ?_, fun h f hf => ?_, fun h hn => ?_⟩
    · simp [get_function_id_from_context, h]
    · simp [get_function_id_from_context, h, hf]
    · simp [get_function_id_from_context, h, hn]
  · intro op args cfg h
    constructor
    · intro url
      cases hc : get_credentials cfg with
      | none => cases op <;> simp [commandPrologue, hc]
      | some c => cases op <;> simp [commandPrologue, hc, h]
    · intro hne
      cases hc : get_credentials cfg with
      | none => exact absurd hc hne
      | some c => cases op <;> simp [commandPrologue, hc, h]

theorem C5_witness :
    get_function_id_from_context (some "x") cfgOk = some "x" ∧
    commandPrologue .getInfo { argsOk with function_id := none } cfgOk = .exitEarly 1 := by
  constructor
  · exact (C5_resolve_function_id.1 (some "x") cfgOk).1 (by decide)
  · exact (C5_resolve_function_id.2 .getInfo { argsOk with function_id := none } cfgOk
      (by decide)).2 (by decide)

/-- A server whose terminal task response carries no entity object at all. -/
def worldC7 : World :=
  { tokenResult := .ok "tok",
    createVersionResult := .ok ⟨some "/functions/f1/tasks/t1"⟩,
    task := fun _ => ⟨some "completed", none⟩,
    deployResult := .ok (),
    intr := noIntr }

def traceC7 : List Req := (runUpdate argsOk cfgOk worldC7 10).elim [] Outcome.trace

/-- C7: the claim says a terminal task whose entity payload yields no
extractable version id still leads to a deployment request. When the entity
object is absent entirely, reading the id raises an attribute error: the run
exits 1 and issues no deployment request at all. -/
theorem C7_counterexample :
    (runUpdate argsOk cfgOk worldC7 10).map Outcome.exitCode = some 1 ∧
    deploys traceC7 = [] := by decide

/-- C7 amended: when the terminal task response carries an entity object that
merely lacks an id, the workflow does issue the deployment request, with the
missing (none) version id, leaving rejection to the server; only a wholly
absent entity aborts locally before the deployment call. -/
theorem C7_deploy_missing_version (args : Args) (cfg : Config) (w : World) (fuel n : Nat)
    (functionId tok : String) (up : UpdateResp) (tpath : String) (c : Credentials)
    (hcred : get_credentials cfg = some c)
    (hfid : get_function_id_from_context args.function_id cfg = some functionId)
    (hcode : args.hasCode = true) (henvf : args.hasEnvFile = true)
    (hvalid : args.envFileValid = true)
    (htok : w.tokenResult = .ok tok)
    (hcv : w.createVersionResult = .ok up)
    (hself : up.self = some tpath)
    (hloop : runLoop w.task w.intr 0 fuel = .terminal n)
    (hent : (w.task (n + 1)).entity = some ⟨none⟩) :
    ∃ o, runUpdate args cfg w fuel = some o ∧
      deploys o.trace =
        [(deployFunctionUrl (resolved_environment args.environment cfg) functionId, none)] := by
  cases hd : w.deployResult with
  | error e =>
    refine ⟨⟨1, Req.token (tokenUrlFor (resolved_environment args.environment cfg)) ::
      Req.createVersion (updateFunctionUrl (resolved_environment args.environment cfg) functionId) ::
      (List.replicate (n + 2) (Req.taskFetch (checkTaskStatusUrl tpath)) ++
        [Req.deploy (deployFunctionUrl (resolved_environment args.environment cfg) functionId)
          none])⟩, ?_, ?_⟩
    · simp [runUpdate, runNetworkPhase, runPollPhase, hcred, hfid, hcode, henvf, hvalid,
        htok, hcv, hself, hloop, afterLoop, hent, entityPhase, hd]
    · simp [deploys, deploys_append, deploys_replicate_taskFetch]
  | ok u =>
    refine ⟨⟨0, Req.token (tokenUrlFor (resolved_environment args.environment cfg)) ::
      Req.createVersion (updateFunctionUrl (resolved_environment args.environment cfg) functionId) ::
      (List.replicate (n + 2) (Req.taskFetch (checkTaskStatusUrl tpath)) ++
        [Req.deploy (deployFunctionUrl (resolved_environment args.environment cfg) functionId)
          none])⟩, ?_, ?_⟩
    · simp [runUpdate, runNetworkPhase, runPollPhase, hcred, hfid, hcode, henvf, hvalid,
        htok, hcv, hself, hloop, afterLoop, hent, entityPhase, hd]
    · simp [deploys, deploys_append, deploys_replicate_taskFetch]

/-- A server whose terminal task response carries an entity object without an
id key. -/
def worldC7b : World :=
  { tokenResult := .ok "tok",
    createVersionResult := .ok ⟨some "/functions/f1/tasks/t1"⟩,
    task := fun _ => ⟨some "completed", some ⟨none⟩⟩,
    deployResult := .ok (),
    intr := noIntr }

theorem C7_witness :
    ∃ o, runUpdate argsOk cfgOk worldC7b 10 = some o ∧
      deploys o.trace =
        [(deployFunctionUrl (resolved_environment argsOk.environment cfgOk) "f1", none)] :=
  C7_deploy_missing_version argsOk cfgOk worldC7b 10 0 "f1" "tok"
    ⟨some "/functions/f1/tasks/t1"⟩ "/functions/f1/tasks/t1"
    ⟨"k", "s", ["S"]⟩ (by decide) (by decide) rfl rfl rfl rfl rfl rfl (by decide) rfl

/-- C8: the claim says a configuration error, in particular unresolvable
credentials, exits with code 1. The code prints a message and returns from
main instead, so the process ends with exit code 0 (and, as claimed, without
any network request). -/
theorem C8_counterexample :
    runUpdate argsOk emptyConfig worldC1 10 = some ⟨0, []⟩ ∧ (0 : Nat) ≠ 1 := by decide

theorem entityPhase_exit (environment functionId taskUrl : String) (n : Nat)
    (ent : Option TaskEntity) (dr : Except Unit Unit) (o : Outcome)
    (h : entityPhase environment functionId taskUrl n ent dr = some o) :
    (o.exitCode = 0 ∨ o.exitCode = 1) ∧
    (o.exitCode = 0 ↔ deploys o.trace ≠ [] ∧ dr = Except.ok ()) := by
  cases ent with
  | none =>
    simp only [entityPhase, Option.some.injEq] at h
    subst h
    refine ⟨Or.inr rfl, ?_⟩
    simp [deploys_replicate_taskFetch]
  | some e =>
    cases dr with
    | error u =>
      simp only [entityPhase, Option.some.injEq] at h
      subst h
      refine ⟨Or.inr rfl, ?_⟩
      simp
    | ok u =>
      simp only [entityPhase, Option.some.injEq] at h
      subst h
      refine ⟨Or.inl rfl, ?_⟩
      simp [deploys_append, deploys_replicate_taskFetch, deploys]

theorem runPollPhase_exit (environment functionId taskUrl : String)
    (task : Nat → TaskResponse) (intr : Nat → Bool) (dr : Except Unit Unit)
    (fuel : Nat) (o : Outcome)
    (h : runPollPhase environment functionId taskUrl task intr dr fuel = some o) :
    (o.exitCode = 0 ∨ o.exitCode = 1) ∧
    (o.exitCode = 0 ↔ deploys o.trace ≠ [] ∧ dr = Except.ok ()) := by
  unfold runPollPhase at h
  cases hl : runLoop task intr 0 fuel <;> rw [hl] at h
  case terminal n =>
    simp only [afterLoop] at h
    exact entityPhase_exit environment functionId taskUrl n _ dr o h
  case interrupted k =>
    simp only [afterLoop, Option.some.injEq] at h
    subst h
    refine ⟨Or.inr rfl, ?_⟩
    simp [deploys_replicate_taskFetch]
  case fuelOut =>
    exact absurd h (by simp [afterLoop])

theorem runNetworkPhase_exit (environment functionId : String) (args : Args) (w : World)
    (fuel : Nat) (o : Outcome)
    (h : runNetworkPhase environment functionId args w fuel = some o) :
    (o.exitCode = 0 ∨ o.exitCode = 1) ∧
    (o.exitCode = 0 ↔ deploys o.trace ≠ [] ∧ w.deployResult = Except.ok ()) := by
  unfold runNetworkPhase at h
  split at h
  · simp only [Option.some.injEq] at h
    subst h
    exact ⟨Or.inr rfl, by simp [deploys]⟩
  · split at h
    · simp only [Option.some.injEq] at h
      subst h
      exact ⟨Or.inr rfl, by simp [deploys]⟩
    · split at h
      · simp only [Option.some.injEq] at h
        subst h
        exact ⟨Or.inr rfl, by simp [deploys]⟩
      · split at h
        · simp only [Option.some.injEq] at h
          subst h
          exact ⟨Or.inr rfl, by simp [deploys]⟩
        · obtain ⟨o', hp, rfl⟩ := Option.map_eq_some'.mp h
          obtain ⟨h1, h2⟩ := runPollPhase_exit environment functionId
            (checkTaskStatusUrl _) w.task w.intr w.deployResult fuel o' hp
          exact ⟨h1, by simpa [deploys] using h2⟩

/-- C8 amended: within the modelled update pipeline every outcome exit code is
0 or 1; the exit code is 0 exactly on full success (a deployment request was
issued and the server accepted it), every handled validation, authentication,
HTTP and interruption failure exiting 1 - except that unresolvable credentials
make main return early, with exit code 0, not 1, and no network request. -/
theorem C8_exit_codes (args : Args) (cfg : Config) (w : World) (fuel : Nat) (o : Outcome)
    (h : runUpdate args cfg w fuel = some o) :
    (get_credentials cfg = none → o = ⟨0, []⟩) ∧
    (o.exitCode = 0 ∨ o.exitCode = 1) ∧
    (get_credentials cfg ≠ none →
      (o.exitCode = 0 ↔ deploys o.trace ≠ [] ∧ w.deployResult = Except.ok ())) := by
  unfold runUpdate at h
  split at h
  next hc =>
    simp only [Option.some.injEq] at h
    subst h
    exact ⟨fun _ => rfl, Or.inl rfl, fun hne => absurd hc hne⟩
  next c hc =>
    refine ⟨fun hn => Option.noConfusion (hc.symm.trans hn), ?_⟩
    have key : (o.exitCode = 0 ∨ o.exitCode = 1) ∧
        (o.exitCode = 0 ↔ deploys o.trace ≠ [] ∧ w.deployResult = Except.ok ()) := by
      split at h
      · simp only [Option.some.injEq] at h
        subst h
        exact ⟨Or.inr rfl, by simp [deploys]⟩
      next functionId hf =>
        split at h
        · simp only [Option.some.injEq] at h
          subst h
          exact ⟨Or.inr rfl, by simp [deploys]⟩
        · split at h
          · simp only [Option.some.injEq] at h
            subst h
            exact ⟨Or.inr rfl, by simp [deploys]⟩
          · exact runNetworkPhase_exit _ functionId args w fuel o h
    exact ⟨key.1, fun _ => key.2⟩

theorem C8_witness :
    ∃ o, runUpdate argsOk cfgOk worldC1 10 = some o ∧
      (o.exitCode = 0 ∨ o.exitCode = 1) := by
  cases hr : runUpdate argsOk cfgOk worldC1 10 with
  | none => exact absurd hr (by decide)
  | some o => exact ⟨o, rfl, (C8_exit_codes argsOk cfgOk worldC1 10 o hr).2.1⟩

end GliaCLI
